import Mathlib

/-!
Verification of the gesture-controlled robot script (src/main.py).

The script maps hand landmarks to a motion command for a differential-drive
robot and maps the command to wheel velocities.  We give a shallow embedding
of the per-frame pipeline:

* `Landmark` models the `(id, cx, cy)` triples appended to `lm_list`
  (line 58).  The coordinates are integers in the source
  (`int(lm.x * w), int(lm.y * h)`, line 57).
* `extract` models the finger computation of lines 63-68.  Indexing a
  too-short `lm_list` raises `IndexError` in Python, which we model as
  `none`.
* `classify` models lines 62 and 70-80: the `if lm_list:` guard (absent
  observation keeps the command) together with the count-to-command chain.
* `sendVelocities` models the dispatch of lines 83-94.  The chain has no
  `else` branch, so an unrecognized command sends nothing: `none`.
  All velocity literals in the source (2.0, -2.0, -1.0, 1.0, 0.0) are
  integral, so we model them exactly as `Int`.
* `processFrameState`, `loopIter` and `runLoop` model one body of the
  `while True:` loop (lines 41-101) and a finite prefix of its execution,
  recording the velocity pairs sent and whether the loop broke on the
  'q' keypress (line 100-101).  Lines 103-106 (release / destroy /
  finish) send no velocities, hence a `runLoop` result whose break flag
  is set sends nothing after the keypress.
-/

/-- One entry of `lm_list`: the tuple `(id, cx, cy)` of line 58 of
src/main.py, with integer pixel coordinates. -/
structure Landmark where
  id : Nat
  x : Int
  y : Int
deriving DecidableEq

/-- Line 34: `tip_ids = [4, 8, 12, 16, 20]` (thumb, index, middle, ring,
pinky tips). -/
def tip_ids : List Nat := [4, 8, 12, 16, 20]

/-- Lines 63-68 of src/main.py.  The source indexes `lm_list` at
`tip_ids[0] = 4` and `tip_ids[0] - 1 = 3` for the thumb (comparing the
x-coordinates, tuple slot 1), and at `tip_ids[i]` and `tip_ids[i] - 2`
for `i = 1..4` (comparing the y-coordinates, tuple slot 2), i.e. at
indices (8,6), (12,10), (16,14), (20,18).  A Python index out of range
raises `IndexError`, modelled by `none`. -/
def extract (lm_list : List Landmark) : Option (List Bool) :=
  (lm_list.get? 4).bind fun t4 =>
  (lm_list.get? 3).bind fun t3 =>
  (lm_list.get? 8).bind fun t8 =>
  (lm_list.get? 6).bind fun t6 =>
  (lm_list.get? 12).bind fun t12 =>
  (lm_list.get? 10).bind fun t10 =>
  (lm_list.get? 16).bind fun t16 =>
  (lm_list.get? 14).bind fun t14 =>
  (lm_list.get? 20).bind fun t20 =>
  (lm_list.get? 18).bind fun t18 =>
  some [decide (t4.x > t3.x),
        decide (t8.y < t6.y),
        decide (t12.y < t10.y),
        decide (t16.y < t14.y),
        decide (t20.y < t18.y)]

/-- Lines 62 and 70-80 of src/main.py: with no observation
(`if lm_list:` fails) the command stays; otherwise
`total_fingers = fingers.count(1)` selects the new command, with the
fall-through keeping the current command for counts 3 and 4. -/
def classify (state : Option (List Bool)) (previous : String) : String :=
  match state with
  | none => previous
  | some fingers =>
    let total_fingers := fingers.count true
    if total_fingers = 0 then "FORWARD"
    else if total_fingers = 1 then "REVERSE"
    else if total_fingers = 2 then "TURN"
    else if total_fingers = 5 then "STOP"
    else previous

/-- Lines 83-94 of src/main.py: the command-to-velocity dispatch.  Each
recognized command issues two `simxSetJointTargetVelocity` calls, one
per wheel, modelled as a `(left, right)` pair.  The `if`/`elif` chain
has no `else`, so any other string sends nothing (`none`). -/
def sendVelocities (current_command : String) : Option (Int × Int) :=
  if current_command = "FORWARD" then some (2, 2)
  else if current_command = "REVERSE" then some (-2, -2)
  else if current_command = "TURN" then some (-1, 1)
  else if current_command = "STOP" then some (0, 0)
  else none

/-- Line 37 of src/main.py: `current_command = "STOP"`. -/
def initial_command : String := "STOP"

/-- Lines 62-80 as one step on the latched command.  The first component
records whether an `IndexError` was raised during the finger computation
(lines 63-68); the second is the value of `current_command` afterwards.
When the exception is raised, the assignments of lines 73-80 never run,
so the variable retains its prior value. -/
def processFrameState (lm_list : List Landmark) (current_command : String) :
    Bool × String :=
  if lm_list = [] then (false, current_command)
  else
    match extract lm_list with
    | none => (true, current_command)
    | some fingers => (false, classify (some fingers) current_command)

/-- The external inputs consumed by one iteration of the `while True:`
loop: whether `cap.read()` succeeded (line 42), the landmark list the
detector produced for the frame (lines 52-58), and whether the 'q' key
was pressed (line 100). -/
structure FrameInput where
  ret : Bool
  lm_list : List Landmark
  key_q : Bool
deriving DecidableEq

/-- One iteration of the loop body (lines 41-101).  `none` models the
program crashing on an uncaught `IndexError`.  Otherwise the result is
the latched command after the iteration, the velocity pairs sent to the
simulator during it, and whether the iteration ended in `break`.
A failed `cap.read()` hits `continue` (line 44): nothing is sent and the
keypress check is skipped. -/
def loopIter (inp : FrameInput) (current_command : String) :
    Option (String × List (Int × Int) × Bool) :=
  if inp.ret = false then some (current_command, [], false)
  else
    let r := processFrameState inp.lm_list current_command
    if r.1 then none
    else
      let sends := match sendVelocities r.2 with
        | some v => [v]
        | none => []
      some (r.2, sends, inp.key_q)

/-- Execution of the loop over a finite prefix of inputs.  The result is
the final latched command, the concatenated log of velocity pairs sent,
and whether the run ended with `break`.  After `break` the program only
runs lines 103-106 (release, destroy, finish), which send no velocities,
so the log stops at the breaking iteration. -/
def runLoop : List FrameInput → String → Option (String × List (Int × Int) × Bool)
  | [], current_command => some (current_command, [], false)
  | inp :: rest, current_command =>
    match loopIter inp current_command with
    | none => none
    | some (cmd2, sends, brk) =>
      if brk then some (cmd2, sends, true)
      else
        match runLoop rest cmd2 with
        | none => none
        | some (cmd3, sends3, brk3) => some (cmd3, sends ++ sends3, brk3)

/-- The closed enumeration of motion commands from the specification. -/
def CommandEnum (c : String) : Prop :=
  c = "FORWARD" ∨ c = "REVERSE" ∨ c = "TURN" ∨ c = "STOP"

instance (c : String) : Decidable (CommandEnum c) := by
  unfold CommandEnum; infer_instance

/-! ### Helper lemmas -/

theorem length_le_of_extract_eq_some {lm : List Landmark} {f : List Bool}
    (h : extract lm = some f) : 21 ≤ lm.length := by
  unfold extract at h
  simp only [Option.bind_eq_some] at h
  obtain ⟨t4, h4, t3, h3, t8, h8, t6, h6, t12, h12, t10, h10,
    t16, h16, t14, h14, t20, h20, t18, h18, _⟩ := h
  have h20n : lm.get? 20 ≠ none := by rw [h20]; exact Option.some_ne_none t20
  rw [Ne, List.get?_eq_none] at h20n
  omega

theorem extract_eq_none_of_short (lm : List Landmark) (h : lm.length < 21) :
    extract lm = none := by
  cases hx : extract lm with
  | none => rfl
  | some f => exact absurd (length_le_of_extract_eq_some hx) (by omega)

theorem extract_isSome_of_long (lm : List Landmark) (h : 21 ≤ lm.length) :
    (extract lm).isSome = true := by
  rw [extract,
    List.get?_eq_get (show 4 < lm.length by omega),
    List.get?_eq_get (show 3 < lm.length by omega),
    List.get?_eq_get (show 8 < lm.length by omega),
    List.get?_eq_get (show 6 < lm.length by omega),
    List.get?_eq_get (show 12 < lm.length by omega),
    List.get?_eq_get (show 10 < lm.length by omega),
    List.get?_eq_get (show 16 < lm.length by omega),
    List.get?_eq_get (show 14 < lm.length by omega),
    List.get?_eq_get (show 20 < lm.length by omega),
    List.get?_eq_get (show 18 < lm.length by omega)]
  simp

theorem classify_enum (st : Option (List Bool)) (cmd : String)
    (h : CommandEnum cmd) : CommandEnum (classify st cmd) := by
  cases st with
  | none => exact h
  | some f =>
    simp only [classify]
    split_ifs <;> first | decide | exact h

theorem classify_ne_imp (f : List Bool) (cmd : String)
    (h : classify (some f) cmd ≠ cmd) :
    f.count true = 0 ∨ f.count true = 1 ∨ f.count true = 2 ∨ f.count true = 5 := by
  by_contra hc
  push_neg at hc
  obtain ⟨h0, h1, h2, h5⟩ := hc
  exact h (by simp [classify, h0, h1, h2, h5])

theorem processFrameState_snd_enum (lm : List Landmark) (cmd : String)
    (h : CommandEnum cmd) : CommandEnum (processFrameState lm cmd).2 := by
  by_cases hlm : lm = []
  · have he : (processFrameState lm cmd).2 = cmd := by simp [processFrameState, hlm]
    rw [he]; exact h
  · cases hx : extract lm with
    | none =>
      have he : (processFrameState lm cmd).2 = cmd := by
        simp [processFrameState, hlm, hx]
      rw [he]; exact h
    | some f =>
      have he : (processFrameState lm cmd).2 = classify (some f) cmd := by
        simp [processFrameState, hlm, hx]
      rw [he]; exact classify_enum (some f) cmd h

theorem loopIter_enum (inp : FrameInput) (cmd : String)
    (out : String × List (Int × Int) × Bool) (h : CommandEnum cmd)
    (hit : loopIter inp cmd = some out) : CommandEnum out.1 := by
  unfold loopIter at hit
  by_cases hret : inp.ret = false
  · rw [if_pos hret] at hit
    obtain rfl : (cmd, ([] : List (Int × Int)), false) = out := by
      injection hit
    exact h
  · rw [if_neg hret] at hit
    simp only at hit
    by_cases hr : (processFrameState inp.lm_list cmd).1
    · rw [if_pos hr] at hit; cases hit
    · rw [if_neg hr] at hit
      have : (processFrameState inp.lm_list cmd).2 = out.1 := by
        injection hit with h1; rw [← h1]
      rw [← this]
      exact processFrameState_snd_enum inp.lm_list cmd h

theorem runLoop_enum (inputs : List FrameInput) (cmd : String)
    (out : String × List (Int × Int) × Bool) (h : CommandEnum cmd)
    (hrun : runLoop inputs cmd = some out) : CommandEnum out.1 := by
  induction inputs generalizing cmd out with
  | nil =>
    obtain rfl : (cmd, ([] : List (Int × Int)), false) = out := by
      unfold runLoop at hrun; injection hrun
    exact h
  | cons inp rest ih =>
    unfold runLoop at hrun
    cases hit : loopIter inp cmd with
    | none => rw [hit] at hrun; cases hrun
    | some o =>
      obtain ⟨cmd2, sends, brk⟩ := o
      have h2 : CommandEnum cmd2 := loopIter_enum inp cmd (cmd2, sends, brk) h hit
      rw [hit] at hrun
      by_cases hbrk : brk = true
      · rw [hbrk] at hrun
        simp only [if_pos] at hrun
        obtain rfl : (cmd2, sends, true) = out := by injection hrun
        exact h2
      · rw [eq_false_of_ne_true hbrk] at hrun
        simp only [Bool.false_eq_true, if_false] at hrun
        cases hr : runLoop rest cmd2 with
        | none => rw [hr] at hrun; cases hrun
        | some o3 =>
          obtain ⟨cmd3, sends3, brk3⟩ := o3
          rw [hr] at hrun
          have h3 : CommandEnum cmd3 := ih cmd2 (cmd3, sends3, brk3) h2 hr
          obtain rfl : (cmd3, sends ++ sends3, brk3) = out := by injection hrun
          exact h3

/-! ### Claims -/

/-- C1: for every well-formed FingerState (5 booleans) whose count of true
values n is in 0, 1, 2, 5, and for every previous command, the classifier
returns the fixed mapped command (FORWARD, REVERSE, TURN, STOP
respectively), independent of the previous command. -/
theorem c1_recognized_counts_fix_command (f : List Bool) (previous : String)
    (h : f.length = 5) :
    (f.count true = 0 → classify (some f) previous = "FORWARD") ∧
    (f.count true = 1 → classify (some f) previous = "REVERSE") ∧
    (f.count true = 2 → classify (some f) previous = "TURN") ∧
    (f.count true = 5 → classify (some f) previous = "STOP") := by
  refine ⟨fun h0 => ?_, fun h1 => ?_, fun h2 => ?_, fun h5 => ?_⟩ <;>
    simp [classify, *]

/-- Witness for C1 at the all-extended state and previous FORWARD. -/
theorem c1_witness :
    ([true, true, true, true, true] : List Bool).length = 5 ∧
    classify (some [true, true, true, true, true]) "FORWARD" = "STOP" :=
  ⟨by decide,
    (c1_recognized_counts_fix_command [true, true, true, true, true]
      "FORWARD" (by decide)).2.2.2 (by decide)⟩

/-- C2: the classifier returns the previous command unchanged, for every
previous command, exactly when the observation is absent or the count of
extended fingers is 3 or 4. -/
theorem c2_latch_exactly (st : Option (List Bool))
    (hwf : ∀ f, st = some f → f.length = 5) :
    (∀ previous, classify st previous = previous) ↔
      (st = none ∨ ∃ f, st = some f ∧ (f.count true = 3 ∨ f.count true = 4)) := by
  cases st with
  | none => simp [classify]
  | some f =>
    have h5 : f.count true ≤ 5 := by
      have hc := List.count_le_length true f
      rw [hwf f rfl] at hc
      exact hc
    constructor
    · intro h
      have hcases : f.count true = 0 ∨ f.count true = 1 ∨ f.count true = 2 ∨
          f.count true = 3 ∨ f.count true = 4 ∨ f.count true = 5 := by omega
      rcases hcases with h0 | h1 | h2 | h3 | h4 | hfive
      · have hr := h "REVERSE"
        have e0 : classify (some f) "REVERSE" = "FORWARD" := by simp [classify, h0]
        rw [e0] at hr
        exact absurd hr (by decide)
      · have hr := h "FORWARD"
        have e1 : classify (some f) "FORWARD" = "REVERSE" := by simp [classify, h1]
        rw [e1] at hr
        exact absurd hr (by decide)
      · have hr := h "FORWARD"
        have e2 : classify (some f) "FORWARD" = "TURN" := by simp [classify, h2]
        rw [e2] at hr
        exact absurd hr (by decide)
      · exact Or.inr ⟨f, rfl, Or.inl h3⟩
      · exact Or.inr ⟨f, rfl, Or.inr h4⟩
      · have hr := h "FORWARD"
        have e5 : classify (some f) "FORWARD" = "STOP" := by simp [classify, hfive]
        rw [e5] at hr
        exact absurd hr (by decide)
    · rintro (hn | ⟨g, hg, hcnt⟩) previous
      · cases hn
      · obtain rfl : f = g := by injection hg
        rcases hcnt with h3 | h4 <;> simp [classify, *]

/-- Witness for C2 at a 3-finger state and previous TURN. -/
theorem c2_witness :
    classify (some [true, true, true, false, false]) "TURN" = "TURN" :=
  (c2_latch_exactly (some [true, true, true, false, false])
      (fun f hf => by cases hf; decide)).mpr
    (Or.inr ⟨[true, true, true, false, false], rfl, Or.inl (by decide)⟩) "TURN"

/-- C3: the actuation policy is a total deterministic lookup on the four
commands: FORWARD sends (2, 2), REVERSE sends (-2, -2), TURN sends
(-1, 1), STOP sends (0, 0), on every invocation. -/
theorem c3_actuation_lookup :
    sendVelocities "FORWARD" = some (2, 2) ∧
    sendVelocities "REVERSE" = some (-2, -2) ∧
    sendVelocities "TURN" = some (-1, 1) ∧
    sendVelocities "STOP" = some (0, 0) := by
  refine ⟨by decide, by decide, by decide, by decide⟩

/-- C4: for a 21-landmark observation, the thumb is extended iff landmark
4 has x strictly greater than landmark 3, and each of the tips 8, 12, 16,
20 is extended iff its y is strictly less than the y of the landmark two
indices below it. -/
theorem c4_finger_rules (lm : List Landmark)
    (l3 l4 l6 l8 l10 l12 l14 l16 l18 l20 : Landmark)
    (hlen : lm.length = 21)
    (h3 : lm.get? 3 = some l3) (h4 : lm.get? 4 = some l4)
    (h6 : lm.get? 6 = some l6) (h8 : lm.get? 8 = some l8)
    (h10 : lm.get? 10 = some l10) (h12 : lm.get? 12 = some l12)
    (h14 : lm.get? 14 = some l14) (h16 : lm.get? 16 = some l16)
    (h18 : lm.get? 18 = some l18) (h20 : lm.get? 20 = some l20) :
    extract lm = some [decide (l4.x > l3.x), decide (l8.y < l6.y),
      decide (l12.y < l10.y), decide (l16.y < l14.y), decide (l20.y < l18.y)] := by
  unfold extract
  rw [h4, h3, h8, h6, h12, h10, h16, h14, h20, h18]
  rfl

/-- A concrete 21-landmark observation with all fingers extended:
landmark i sits at x = i, y = 21 - i. -/
def hand21 : List Landmark :=
  (List.range 21).map (fun i => Landmark.mk i (i : Int) (21 - (i : Int)))

/-- Witness for C4 at `hand21`. -/
theorem c4_witness : extract hand21 = some [true, true, true, true, true] := by
  have h := c4_finger_rules hand21
    ⟨3, 3, 18⟩ ⟨4, 4, 17⟩ ⟨6, 6, 15⟩ ⟨8, 8, 13⟩ ⟨10, 10, 11⟩ ⟨12, 12, 9⟩
    ⟨14, 14, 7⟩ ⟨16, 16, 5⟩ ⟨18, 18, 3⟩ ⟨20, 20, 1⟩
    (by decide) (by decide) (by decide) (by decide) (by decide) (by decide)
    (by decide) (by decide) (by decide) (by decide) (by decide)
  exact h.trans (by decide)

/-- C5 counterexample: an observation of 22 landmarks (not 21) on which
the extractor succeeds rather than failing, and no error is raised. -/
theorem c5_counterexample :
    (List.replicate 22 (Landmark.mk 0 0 0)).length ≠ 21 ∧
    extract (List.replicate 22 (Landmark.mk 0 0 0)) ≠ none ∧
    (processFrameState (List.replicate 22 (Landmark.mk 0 0 0)) "STOP").1 = false := by
  decide

/-- C5 (amended): the extractor fails exactly on a nonempty observation
with fewer than 21 landmarks (21 or more succeed, consuming only
landmarks 0-20), and on a failing frame the latched command is left
unmodified. -/
theorem c5_amended_malformed (lm : List Landmark) (cur : String) :
    ((processFrameState lm cur).1 = true ↔ lm ≠ [] ∧ lm.length < 21) ∧
    ((processFrameState lm cur).1 = true → (processFrameState lm cur).2 = cur) := by
  constructor
  · constructor
    · intro h
      by_cases hlm : lm = []
      · simp [processFrameState, hlm] at h
      · refine ⟨hlm, ?_⟩
        by_contra hlen
        push_neg at hlen
        have hs := extract_isSome_of_long lm hlen
        obtain ⟨f, hf⟩ := Option.isSome_iff_exists.mp hs
        simp [processFrameState, hlm, hf] at h
    · rintro ⟨hlm, hlen⟩
      simp [processFrameState, hlm, extract_eq_none_of_short lm hlen]
  · intro h
    by_cases hlm : lm = []
    · simp [processFrameState, hlm] at h
    · cases hx : extract lm with
      | none => simp [processFrameState, hlm, hx]
      | some f => simp [processFrameState, hlm, hx] at h

/-- Witness for C5 (amended) at a 3-landmark observation. -/
theorem c5_witness :
    (processFrameState (List.replicate 3 (Landmark.mk 0 0 0)) "TURN").1 = true ∧
    (processFrameState (List.replicate 3 (Landmark.mk 0 0 0)) "TURN").2 = "TURN" := by
  have h := c5_amended_malformed (List.replicate 3 (Landmark.mk 0 0 0)) "TURN"
  have h1 := h.1.mpr (by decide)
  exact ⟨h1, h.2 h1⟩

/-- The all-curled 21-landmark observation (all coordinates equal, so
every strict comparison fails and the count of extended fingers is 0). -/
def curled_hand : List Landmark := List.replicate 21 (Landmark.mk 0 0 0)

/-- C6: a concrete run that terminates on the 'q' keypress.  The frame
classifies FORWARD, the iteration sends (2, 2), the keypress breaks the
loop, and the run's complete send log is [(2, 2)]: no STOP pair (0, 0)
is ever sent after the stop signal, since lines 103-106 send nothing. -/
theorem c6_no_stop_sent_on_quit :
    runLoop [FrameInput.mk true curled_hand true] initial_command
      = some ("FORWARD", [((2 : Int), (2 : Int))], true) ∧
    ((2 : Int), (2 : Int)) ≠ ((0 : Int), (0 : Int)) := by decide

/-- C7 counterexample: on the out-of-enumeration value "LEFT" the
dispatch sends nothing at all; in particular it does not send the STOP
pair (0, 0). -/
theorem c7_counterexample :
    sendVelocities "LEFT" = none ∧ sendVelocities "LEFT" ≠ some (0, 0) := by
  decide

/-- C7 (amended): on a value outside the enumeration the dispatch chain
falls through all four branches and sends no velocity pair at all
(`none`), leaving the previously applied setpoints in effect, rather
than failing closed to STOP. -/
theorem c7_amended_no_send (cmd : String) (h : ¬ CommandEnum cmd) :
    sendVelocities cmd = none := by
  unfold sendVelocities
  unfold CommandEnum at h
  push_neg at h
  obtain ⟨h1, h2, h3, h4⟩ := h
  simp [h1, h2, h3, h4]

/-- Witness for C7 (amended) at the value "LEFT". -/
theorem c7_witness : sendVelocities "LEFT" = none :=
  c7_amended_no_send "LEFT" (by decide)

/-- C8: the latch starts as STOP; every latch value reachable by running
the loop from the initial command is one of the four enumeration values;
and an iteration changes the latch only when its frame carries a nonempty
landmark list whose extracted finger count is 0, 1, 2 or 5. -/
theorem c8_latch_invariant :
    initial_command = "STOP" ∧
    (∀ (inputs : List FrameInput) (out : String × List (Int × Int) × Bool),
      runLoop inputs initial_command = some out → CommandEnum out.1) ∧
    (∀ (inp : FrameInput) (cmd : String) (out : String × List (Int × Int) × Bool),
      loopIter inp cmd = some out → out.1 ≠ cmd →
        inp.lm_list ≠ [] ∧ ∃ f, extract inp.lm_list = some f ∧
          (f.count true = 0 ∨ f.count true = 1 ∨ f.count true = 2 ∨
            f.count true = 5)) := by
  refine ⟨rfl, ?_, ?_⟩
  · intro inputs out hrun
    exact runLoop_enum inputs initial_command out (by decide) hrun
  · intro inp cmd out hit hne
    unfold loopIter at hit
    by_cases hret : inp.ret = false
    · rw [if_pos hret] at hit
      obtain rfl : (cmd, ([] : List (Int × Int)), false) = out := by injection hit
      exact absurd rfl hne
    · rw [if_neg hret] at hit
      simp only at hit
      by_cases hr : (processFrameState inp.lm_list cmd).1
      · rw [if_pos hr] at hit; cases hit
      · rw [if_neg hr] at hit
        have hfst : out.1 = (processFrameState inp.lm_list cmd).2 := by
          injection hit with h1; rw [← h1]
        by_cases hlm : inp.lm_list = []
        · exfalso
          apply hne
          rw [hfst]
          simp [processFrameState, hlm]
        · refine ⟨hlm, ?_⟩
          cases hx : extract inp.lm_list with
          | none =>
            exfalso
            apply hr
            simp [processFrameState, hlm, hx]
          | some f =>
            refine ⟨f, rfl, ?_⟩
            apply classify_ne_imp f cmd
            intro hcl
            apply hne
            rw [hfst]
            simp [processFrameState, hlm, hx, hcl]

/-- Witness for C8: the empty run keeps the enumerated initial command,
and a concrete command-changing iteration has a recognized count. -/
theorem c8_witness :
    CommandEnum "STOP" ∧
    (curled_hand ≠ [] ∧ ∃ f, extract curled_hand = some f ∧
      (f.count true = 0 ∨ f.count true = 1 ∨ f.count true = 2 ∨
        f.count true = 5)) :=
  ⟨c8_latch_invariant.2.1 [] ("STOP", [], false) rfl,
   c8_latch_invariant.2.2 (FrameInput.mk true curled_hand false) "STOP"
     ("FORWARD", [((2 : Int), (2 : Int))], false) (by decide) (by decide)⟩

theorem extract_append (hand rest : List Landmark) (h : hand.length = 21) :
    extract (hand ++ rest) = extract hand := by
  unfold extract
  rw [List.get?_append (show 4 < hand.length by omega),
      List.get?_append (show 3 < hand.length by omega),
      List.get?_append (show 8 < hand.length by omega),
      List.get?_append (show 6 < hand.length by omega),
      List.get?_append (show 12 < hand.length by omega),
      List.get?_append (show 10 < hand.length by omega),
      List.get?_append (show 16 < hand.length by omega),
      List.get?_append (show 14 < hand.length by omega),
      List.get?_append (show 20 < hand.length by omega),
      List.get?_append (show 18 < hand.length by omega)]

/-- C9: two frames that agree on the first 21 landmarks (the first
detected hand) but differ in whatever is appended after them produce the
same FingerState and the same command update. -/
theorem c9_only_first_hand (hand rest1 rest2 : List Landmark)
    (h : hand.length = 21) :
    extract (hand ++ rest1) = extract (hand ++ rest2) ∧
    ∀ cur, processFrameState (hand ++ rest1) cur
      = processFrameState (hand ++ rest2) cur := by
  have e1 := extract_append hand rest1 h
  have e2 := extract_append hand rest2 h
  constructor
  · rw [e1, e2]
  · intro cur
    have hhand : hand ≠ [] := by
      intro hh
      rw [hh] at h
      simp at h
    have hne1 : hand ++ rest1 ≠ [] :=
      fun hc => hhand (List.append_eq_nil.mp hc).1
    have hne2 : hand ++ rest2 ≠ [] :=
      fun hc => hhand (List.append_eq_nil.mp hc).1
    unfold processFrameState
    rw [if_neg hne1, if_neg hne2, e1, e2]

/-- Witness for C9: appending a second hand's landmark does not change
the extraction or the frame step. -/
theorem c9_witness :
    extract (hand21 ++ []) = extract (hand21 ++ [Landmark.mk 0 100 100]) ∧
    processFrameState (hand21 ++ []) "STOP"
      = processFrameState (hand21 ++ [Landmark.mk 0 100 100]) "STOP" := by
  have h := c9_only_first_hand hand21 [] [Landmark.mk 0 100 100] (by decide)
  exact ⟨h.1, h.2 "STOP"⟩

/-- C10: for every command of the enumeration the velocity pair sent has
wheels of equal absolute value, each within [-2, 2]. -/
theorem c10_velocity_bounds (cmd : String) (h : CommandEnum cmd) :
    ∃ l r, sendVelocities cmd = some (l, r) ∧ |l| = |r| ∧
      -2 ≤ l ∧ l ≤ 2 ∧ -2 ≤ r ∧ r ≤ 2 := by
  rcases h with h | h | h | h <;> subst h
  · exact ⟨2, 2, by decide, by decide, by decide, by decide, by decide, by decide⟩
  · exact ⟨-2, -2, by decide, by decide, by decide, by decide, by decide, by decide⟩
  · exact ⟨-1, 1, by decide, by decide, by decide, by decide, by decide, by decide⟩
  · exact ⟨0, 0, by decide, by decide, by decide, by decide, by decide, by decide⟩

/-- Witness for C10 at the TURN command. -/
theorem c10_witness :
    ∃ l r, sendVelocities "TURN" = some (l, r) ∧ |l| = |r| ∧
      -2 ≤ l ∧ l ≤ 2 ∧ -2 ≤ r ∧ r ≤ 2 :=
  c10_velocity_bounds "TURN" (by decide)
